import Mathlib

/-!
Verification development for the snake-slurm repository: a per-node GPU
smoke-test script (test_gpu_node.py) and a results aggregator
(summarize_results.py).  The scripts are embedded shallowly: external
library behaviour (PyTorch, Cellpose, the filesystem, the clock) is
abstracted into explicit input data, while every piece of control flow,
string formatting and data shaping written in the repository itself is
translated directly.
-/

namespace SnakeSlurm

/-- A JSON value, the shape produced by json.dump / json.load. -/
inductive JValue where
  | null : JValue
  | bool : Bool → JValue
  | num : Int → JValue
  | str : String → JValue
  | arr : List JValue → JValue
  | obj : List (String × JValue) → JValue
  deriving Inhabited

/-- Field access on a JSON object (r["key"]), none when absent or not an object. -/
def JValue.lookup : JValue → String → Option JValue
  | .obj kvs, k => List.lookup k kvs
  | _, _ => none

/-- Extract a JSON string. -/
def JValue.asStr : JValue → Option String
  | .str s => some s
  | _ => none

/-- Extract a JSON object's key-value list. -/
def JValue.asObj : JValue → Option (List (String × JValue))
  | .obj kvs => some kvs
  | _ => none

/-- Extract a list of strings from a list of JSON values. -/
def JValue.asStrs : List JValue → Option (List String)
  | [] => some []
  | .str s :: rest => (asStrs rest).map (s :: ·)
  | _ :: _ => none

/-- Extract a JSON array of strings. -/
def JValue.asStrList : JValue → Option (List String)
  | .arr xs => JValue.asStrs xs
  | _ => none

/-- The per-node result record built by test_gpu_node.py main
(node identifier, hostname, status, tests mapping, error list). -/
structure Record where
  node : String
  hostname : String
  status : String
  tests : List (String × JValue)
  errors : List String

/-- Serialization of the result record as json.dump writes it
(test_gpu_node.py line 241). -/
def recordToJson (r : Record) : JValue :=
  .obj [("node", .str r.node),
        ("hostname", .str r.hostname),
        ("status", .str r.status),
        ("tests", .obj r.tests),
        ("errors", .arr (r.errors.map JValue.str))]

/-- Reading a result record back from JSON: the field accesses the
aggregator performs (r["node"], r["hostname"], r["status"], r["tests"],
r["errors"] in summarize_results.py). -/
def recordOfJson (j : JValue) : Option Record := do
  let node ← (j.lookup "node").bind JValue.asStr
  let hostname ← (j.lookup "hostname").bind JValue.asStr
  let status ← (j.lookup "status").bind JValue.asStr
  let tests ← (j.lookup "tests").bind JValue.asObj
  let errors ← (j.lookup "errors").bind JValue.asStrList
  some ⟨node, hostname, status, tests, errors⟩

/-- A Python exception as the scripts observe it: its message (str(e))
and its stack trace (traceback.format_exc()). -/
structure PyExc where
  msg : String
  tb : String

/-- One CUDA device as reported by torch.cuda. -/
structure GpuDevice where
  name : String
  memory_gb : Int
  compute_capability : String

/-- The ambient environment data collected by test_environment. -/
structure EnvInfo where
  python_executable : String
  python_version : String
  slurm_job_id : String
  slurm_nodelist : String
  cuda_visible_devices : String

/-- Everything the external libraries contribute to one run of
test_gpu_node.py main: which calls raise, and the values the
successful calls return. -/
structure Env where
  hostname : String
  info : EnvInfo
  pytorchExc : Option PyExc
  torchVersion : String
  cudaCompiledVersion : String
  cudaAvailable : Bool
  devices : List GpuDevice
  cellposeExc : Option PyExc
  cellposeVersion : String
  modelExc : Option PyExc
  modelDevice : String
  modelGpuFlag : Bool
  modelNetDevice : Option String
  modelParamDevice : Option String
  inferenceExc : Option PyExc
  numMasks : Int
  outputShape : String

/-- The opaque model object returned by models.CellposeModel; main only
tests it against None before handing it to test_inference. -/
structure CPModel where
  device : String
  gpuFlag : Bool

/-- test_environment (test_gpu_node.py lines 23-31). -/
def test_environment (i : EnvInfo) : JValue :=
  .obj [("python_executable", .str i.python_executable),
        ("python_version", .str i.python_version),
        ("slurm_job_id", .str i.slurm_job_id),
        ("slurm_nodelist", .str i.slurm_nodelist),
        ("cuda_visible_devices", .str i.cuda_visible_devices)]

/-- One entry of the devices array built by test_pytorch. -/
def deviceJson (i : Nat) (d : GpuDevice) : JValue :=
  .obj [("index", .num i),
        ("name", .str d.name),
        ("memory_gb", .num d.memory_gb),
        ("compute_capability", .str d.compute_capability)]

/-- test_pytorch (test_gpu_node.py lines 34-69): returns the test result
value and the list of error strings it contributes. -/
def test_pytorch (exc : Option PyExc) (version cudaVer : String)
    (cudaAvailable : Bool) (devices : List GpuDevice) :
    JValue × List String :=
  match exc with
  | some e =>
      (.obj [("error", .str e.msg), ("traceback", .str e.tb)],
       ["PyTorch error: " ++ e.msg])
  | none =>
      let deviceCount : Nat := if cudaAvailable then devices.length else 0
      let base := [("version", JValue.str version),
                   ("cuda_compiled_version", JValue.str cudaVer),
                   ("cuda_available", JValue.bool cudaAvailable),
                   ("device_count", JValue.num deviceCount)]
      if cudaAvailable then
        (.obj (base ++ [("devices", .arr (devices.enum.map (fun p => deviceJson p.1 p.2)))]), [])
      else
        (.obj base, ["CUDA not available despite GPU partition"])

/-- test_cellpose (test_gpu_node.py lines 72-104); the version-resolution
fallback via pip is folded into the resolved version string. -/
def test_cellpose (exc : Option PyExc) (version : String) :
    JValue × List String :=
  match exc with
  | some e =>
      (.obj [("error", .str e.msg), ("traceback", .str e.tb)],
       ["Cellpose import error: " ++ e.msg])
  | none =>
      (.obj [("version", .str version), ("imported", .bool true)], [])

/-- The warning emitted when the model lands on the CPU while CUDA is
available (test_gpu_node.py line 139). -/
def cpuWarning : String := "Model loaded on CPU despite CUDA being available!"

/-- test_model_loading (test_gpu_node.py lines 107-150): returns the model
object (None on failure), the result value, and the error strings. -/
def test_model_loading (exc : Option PyExc) (device : String)
    (gpuFlag : Bool) (netDevice paramDevice : Option String)
    (cudaAvailable : Bool) :
    Option CPModel × JValue × List String :=
  match exc with
  | some e =>
      (none,
       .obj [("error", .str e.msg), ("traceback", .str e.tb)],
       ["Model loading error: " ++ e.msg])
  | none =>
      let base := [("success", JValue.bool true),
                   ("device", JValue.str device),
                   ("gpu_flag", JValue.bool gpuFlag)]
      let base := base ++ (match netDevice with
        | some nd => [("network_device", JValue.str nd)]
        | none => [])
      let base := base ++ (match paramDevice with
        | some pd => [("parameter_device", JValue.str pd)]
        | none => [])
      if device == "cpu" && cudaAvailable then
        (some ⟨device, gpuFlag⟩, .obj (base ++ [("warning", .str cpuWarning)]), [cpuWarning])
      else
        (some ⟨device, gpuFlag⟩, .obj base, [])

/-- test_inference (test_gpu_node.py lines 153-179). -/
def test_inference (exc : Option PyExc) (numMasks : Int)
    (shape : String) : JValue × List String :=
  match exc with
  | some e =>
      (.obj [("error", .str e.msg), ("traceback", .str e.tb)],
       ["Inference error: " ++ e.msg])
  | none =>
      (.obj [("success", .bool true),
             ("num_masks_found", .num numMasks),
             ("output_shape", .str shape)], [])

/-- The fixed tests entry written when inference is skipped
(test_gpu_node.py line 225). -/
def skippedInference : JValue :=
  .obj [("error", .str "Model not loaded, skipping inference")]

/-- Overall status computation (test_gpu_node.py lines 227-237):
SUCCESS when the error list is empty, FAILED otherwise.  The record's
placeholder value "unknown" is overwritten here. -/
def finalStatus (errors : List String) : String :=
  if errors.length == 0 then "SUCCESS" else "FAILED"

/-- The result record main builds and writes (test_gpu_node.py lines
182-241), as a function of the node argument and the environment. -/
def mainRecord (node : String) (env : Env) : Record :=
  let p := test_pytorch env.pytorchExc env.torchVersion env.cudaCompiledVersion
             env.cudaAvailable env.devices
  let c := test_cellpose env.cellposeExc env.cellposeVersion
  let m := test_model_loading env.modelExc env.modelDevice env.modelGpuFlag
             env.modelNetDevice env.modelParamDevice env.cudaAvailable
  let i := match m.1 with
    | some _ => test_inference env.inferenceExc env.numMasks env.outputShape
    | none => (skippedInference, [])
  let errors := p.2 ++ c.2 ++ m.2.2 ++ i.2
  { node := node
    hostname := env.hostname
    status := finalStatus errors
    tests := [("environment", test_environment env.info),
              ("pytorch", p.1),
              ("cellpose", c.1),
              ("model_loading", m.2.1),
              ("inference", i.1)]
    errors := errors }

/-- Process exit code of the per-node script (test_gpu_node.py line 246). -/
def mainExitCode (node : String) (env : Env) : Nat :=
  if (mainRecord node env).status == "SUCCESS" then 0 else 1

/-- Parsed command-line arguments of summarize_results.py. -/
structure SummaryArgs where
  input_dir : String
  output : String
  input_files : Option (List String)

/-- Argparse behaviour of summarize_results.py (lines 15-19):
"--input-dir" and "--output" carry required=True, so both must be
present on every invocation; "--input-files" is optional, and its
nargs is a plus sign, so when the flag is given it must carry at
least one value. -/
def parseSummaryArgs (input_dir : Option String) (output : Option String)
    (input_files : Option (List String)) : Except String SummaryArgs :=
  match input_dir with
  | none => .error "the following arguments are required: --input-dir"
  | some d =>
    match output with
    | none => .error "the following arguments are required: --output"
    | some o =>
      match input_files with
      | some [] => .error "argument --input-files: expected at least one argument"
      | fs => .ok ⟨d, o, fs⟩

/-- The glob over the input directory (summarize_results.py line 26):
sorted(Path(input_dir).glob("*_result.json")), as a function of the
directory listing. -/
def globResultFiles (dirListing : List String) : List String :=
  (dirListing.filter (fun f => f.endsWith "_result.json")).mergeSort
    (fun a b => decide (a ≤ b))

/-- File-selection logic (summarize_results.py lines 22-26): the
explicit input_files list is used when it is truthy (present and
non-empty), otherwise the directory glob. -/
def resultFiles (args : SummaryArgs) (globbed : List String) : List String :=
  match args.input_files with
  | some (f :: fs) => f :: fs
  | _ => globbed

/-- The load loop (summarize_results.py lines 28-30): each input file's
parsed JSON is appended in turn; a file that is not well-formed JSON
raises out of the loop, modelled as none. -/
def loadResults : List (Option JValue) → Option (List JValue)
  | [] => some []
  | none :: _ => none
  | some j :: rest => (loadResults rest).map (j :: ·)

/-- The successful records (summarize_results.py line 41). -/
def successNodes (results : List Record) : List Record :=
  results.filter (fun r => r.status == "SUCCESS")

/-- The failed records (summarize_results.py line 42). -/
def failedNodes (results : List Record) : List Record :=
  results.filter (fun r => r.status == "FAILED")

/-- One step of the error-grouping dict build (summarize_results.py
lines 75-77): a missing key is first bound to an empty list, then the
node is appended; the two statements collapse to one update here.
Python dicts keep insertion order, so the dict is an association list. -/
def addError (cats : List (String × List String)) (err node : String) :
    List (String × List String) :=
  if cats.any (fun p => p.1 == err) then
    cats.map (fun p => if p.1 == err then (p.1, p.2 ++ [node]) else p)
  else
    cats ++ [(err, [node])]

/-- The error_categories dict (summarize_results.py lines 72-77), built
over the failed records. -/
def errorCategories (failures : List Record) : List (String × List String) :=
  failures.foldl
    (fun cats r => r.errors.foldl (fun c err => addError c err r.node) cats) []

/-- A node name is listed under an error string in the detailed error
breakdown. -/
def inCategory (cats : List (String × List String)) (e node : String) : Prop :=
  ∃ p ∈ cats, p.1 = e ∧ node ∈ p.2

instance (cats : List (String × List String)) (e node : String) :
    Decidable (inCategory cats e node) := by
  unfold inCategory
  infer_instance

/-- A run of '=' characters, "=" * 80 in the source. -/
def repChar (c : Char) (n : Nat) : String := String.mk (List.replicate n c)

/-- The GPU line of a device entry in the successful-nodes section
(summarize_results.py line 55).  A device entry without the expected
keys raises KeyError in the source; no claim touches those lines, and
such an entry renders as no line here. -/
def deviceLine (dev : JValue) : List String :=
  match dev.lookup "name", dev.lookup "memory_gb" with
  | some (.str n), some (.num m) => ["      GPU: " ++ n ++ " (" ++ toString m ++ "GB)\n"]
  | _, _ => []

/-- The chunk written for one successful node (summarize_results.py
lines 51-55). -/
def successChunks (r : Record) : List String :=
  ("  ✓ " ++ r.node ++ " (hostname: " ++ r.hostname ++ ")\n") ::
  (match List.lookup "pytorch" r.tests with
   | some py =>
     match py.lookup "devices" with
     | some (.arr devs) => (devs.map deviceLine).flatten
     | _ => []
   | none => [])

/-- The chunk written for one failed node (summarize_results.py
lines 62-66). -/
def failChunks (r : Record) : List String :=
  ("  ✗ " ++ r.node ++ " (hostname: " ++ r.hostname ++ ")\n") ::
  (r.errors.map (fun e => "      ERROR: " ++ e ++ "\n")) ++ ["\n"]

/-- The chunk written for one entry of the detailed error breakdown
(summarize_results.py lines 79-81). -/
def categoryChunks (p : String × List String) : List String :=
  ["\n" ++ p.1 ++ "\n",
   "  Affected nodes (" ++ toString p.2.length ++ "): " ++
     String.intercalate ", " p.2 ++ "\n"]

/-- The summary report (summarize_results.py lines 33-83) as the list
of strings passed to f.write, in order; now stands for
datetime.now().isoformat(). -/
def summaryChunks (now : String) (results : List Record) : List String :=
  let successes := successNodes results
  let failures := failedNodes results
  [repChar '=' 80 ++ "\n",
   "CELLPOSE-SAM GPU TEST SUMMARY\n",
   "Generated: " ++ now ++ "\n",
   "Total nodes tested: " ++ toString results.length ++ "\n",
   repChar '=' 80 ++ "\n\n",
   "✓ SUCCESS: " ++ toString successes.length ++ " nodes\n",
   "✗ FAILED:  " ++ toString failures.length ++ " nodes\n\n"] ++
  (if successes.isEmpty then [] else
    ["SUCCESSFUL NODES:\n", repChar '-' 80 ++ "\n"] ++
      (successes.map successChunks).flatten ++ ["\n"]) ++
  (if failures.isEmpty then [] else
    ["FAILED NODES:\n", repChar '-' 80 ++ "\n"] ++
      (failures.map failChunks).flatten) ++
  ["\nDETAILED ERROR BREAKDOWN:\n", repChar '-' 80 ++ "\n"] ++
  ((errorCategories failures).map categoryChunks).flatten ++
  ["\n" ++ repChar '=' 80 ++ "\n"]

/-- The whole summary run on the parsed contents of the selected input
files (none standing for a file that is not well-formed JSON): the
summary text exists only when every file loads.  Field extraction from
the loaded records is pulled in front of the formatting here; in the
source it happens while writing. -/
def summarizeRun (now : String) (inputs : List (Option JValue)) :
    Option (List String) :=
  (loadResults inputs).bind fun js =>
    (js.mapM recordOfJson).map fun rs => summaryChunks now rs

/-! The success-section formatting of the source can raise: line 55
subscripts each device entry, so a malformed entry aborts the report
mid-write with KeyError or TypeError, and the output file keeps only
what was written before the raise.  The definitions below model that
write-prefix semantics exactly; `summaryChunks` above stays as the full
report produced when no write raises. -/

mutual

/-- Python repr() of a JSON-shaped value, as used when str() renders a
container's elements: strings are quoted (escape sequences inside them
are not modelled), True/False/None use Python spelling. -/
def pyRepr : JValue → String
  | .str s => "\x27" ++ s ++ "\x27"
  | .num n => toString n
  | .bool true => "True"
  | .bool false => "False"
  | .null => "None"
  | .arr xs => "[" ++ pyReprArr xs ++ "]"
  | .obj kvs => "\x7b" ++ pyReprObj kvs ++ "\x7d"

/-- Comma-joined repr of a JSON array's elements. -/
def pyReprArr : List JValue → String
  | [] => ""
  | [x] => pyRepr x
  | x :: rest => pyRepr x ++ ", " ++ pyReprArr rest

/-- Comma-joined repr of a JSON object's entries. -/
def pyReprObj : List (String × JValue) → String
  | [] => ""
  | [(k, v)] => "\x27" ++ k ++ "\x27: " ++ pyRepr v
  | (k, v) :: rest => "\x27" ++ k ++ "\x27: " ++ pyRepr v ++ ", " ++ pyReprObj rest

end

/-- Python str() of a JSON-shaped value, as the f-string at line 55
renders dev entries: a string renders as itself, everything else as its
repr. -/
def pyStr : JValue → String
  | .str s => s
  | v => pyRepr v

/-- The GPU line for one device entry (summarize_results.py line 55),
with the raise modelled: subscripting a non-dict entry raises TypeError
and a dict entry missing name or memory_gb raises KeyError, either way
before this line is written; none stands for the raise. -/
def deviceLineE (dev : JValue) : Option String :=
  match dev with
  | .obj kvs =>
    match List.lookup "name" kvs, List.lookup "memory_gb" kvs with
    | some nv, some mv =>
      some ("      GPU: " ++ pyStr nv ++ " (" ++ pyStr mv ++ "GB)\n")
    | _, _ => none
  | _ => none

/-- The device loop over a list of entries: lines written so far are
kept, and the flag records whether the loop finished without raising. -/
def devLinesGo : List JValue → List String × Bool
  | [] => ([], true)
  | d :: rest =>
    match deviceLineE d with
    | some line =>
      let p := devLinesGo rest
      (line :: p.1, p.2)
    | none => ([], false)

/-- Iterating r["tests"]["pytorch"]["devices"] (line 54): an array
iterates its entries; an empty dict or empty string iterates nothing; a
non-empty dict or string yields a string element whose subscription at
line 55 raises TypeError; anything else is not iterable. -/
def deviceLinesE : JValue → List String × Bool
  | .arr devs => devLinesGo devs
  | .obj [] => ([], true)
  | .obj (_ :: _) => ([], false)
  | .str s => ([], s == "")
  | _ => ([], false)

/-- The Python test "devices" in v (line 53): key containment for a
dict, substring containment for a string, element equality for a list,
and TypeError (none) otherwise. -/
def pyContainsDevices : JValue → Option Bool
  | .obj kvs => some (kvs.any (fun p => p.1 == "devices"))
  | .str s => some (decide (1 < (s.splitOn "devices").length))
  | .arr xs => some (xs.any (fun v => match v with
      | .str s => s == "devices"
      | _ => false))
  | _ => none

/-- The writes for one successful node (lines 51-55) with the raise
path: the node line always lands, then the guarded device loop; false
means the iteration raised and the report is cut short here. -/
def successChunksE (r : Record) : List String × Bool :=
  let nodeLine := "  ✓ " ++ r.node ++ " (hostname: " ++ r.hostname ++ ")\n"
  match List.lookup "pytorch" r.tests with
  | none => ([nodeLine], true)
  | some py =>
    match pyContainsDevices py with
    | none => ([nodeLine], false)
    | some false => ([nodeLine], true)
    | some true =>
      match py with
      | .obj kvs =>
        match List.lookup "devices" kvs with
        | some devices =>
          let p := deviceLinesE devices
          (nodeLine :: p.1, p.2)
        | none => ([nodeLine], false)
      | _ => ([nodeLine], false)

/-- The loop over the successful nodes (lines 51-55): once one record's
formatting raises, nothing further is written. -/
def successSectionE : List Record → List String × Bool
  | [] => ([], true)
  | r :: rest =>
    let p := successChunksE r
    if p.2 then
      let q := successSectionE rest
      (p.1 ++ q.1, q.2)
    else (p.1, false)

/-- The report part written after the success section (lines 59-83):
its inputs are all typed by the record shape, so it cannot raise. -/
def summaryTail (failures : List Record) : List String :=
  (if failures.isEmpty then [] else
    ["FAILED NODES:\n", repChar '-' 80 ++ "\n"] ++
      (failures.map failChunks).flatten) ++
  ["\nDETAILED ERROR BREAKDOWN:\n", repChar '-' 80 ++ "\n"] ++
  ((errorCategories failures).map categoryChunks).flatten ++
  ["\n" ++ repChar '=' 80 ++ "\n"]

/-- The chunks actually written to the output file (lines 33-83): the
full report when no write raises, and the prefix up to the raise when a
successful record's device entries are malformed.  The with-block
closes the file on the way out, so the prefix is preserved. -/
def summaryWritten (now : String) (results : List Record) : List String :=
  let successes := successNodes results
  let failures := failedNodes results
  [repChar '=' 80 ++ "\n",
   "CELLPOSE-SAM GPU TEST SUMMARY\n",
   "Generated: " ++ now ++ "\n",
   "Total nodes tested: " ++ toString results.length ++ "\n",
   repChar '=' 80 ++ "\n\n",
   "✓ SUCCESS: " ++ toString successes.length ++ " nodes\n",
   "✗ FAILED:  " ++ toString failures.length ++ " nodes\n\n"] ++
  (if successes.isEmpty then summaryTail failures
   else
     ["SUCCESSFUL NODES:\n", repChar '-' 80 ++ "\n"] ++
     (if (successSectionE successes).2 then
        (successSectionE successes).1 ++ ["\n"] ++ summaryTail failures
      else (successSectionE successes).1))

/-- The whole summary run with write-prefix semantics: none when some
input is not well-formed JSON, otherwise the chunks actually written,
possibly truncated by a formatting raise. -/
def summarizeRunW (now : String) (inputs : List (Option JValue)) :
    Option (List String) :=
  (loadResults inputs).bind fun js =>
    (js.mapM recordOfJson).map fun rs => summaryWritten now rs

/-! ### Lemmas about the per-node script -/

theorem finalStatus_eq_failed (l : List String) : finalStatus l = "FAILED" ↔ l ≠ [] := by
  cases l <;> simp [finalStatus]

theorem finalStatus_eq_success (l : List String) : finalStatus l = "SUCCESS" ↔ l = [] := by
  cases l <;> simp [finalStatus]

theorem finalStatus_cases (l : List String) :
    finalStatus l = "SUCCESS" ∨ finalStatus l = "FAILED" := by
  cases l <;> simp [finalStatus]

theorem mainRecord_status_def (node : String) (env : Env) :
    (mainRecord node env).status = finalStatus (mainRecord node env).errors := rfl

/-- C1: the status of the record the per-node script produces is FAILED
exactly when its error list is non-empty, and SUCCESS exactly when the
error list is empty. -/
theorem status_iff_errors (node : String) (env : Env) :
    ((mainRecord node env).status = "FAILED" ↔ (mainRecord node env).errors ≠ []) ∧
    ((mainRecord node env).status = "SUCCESS" ↔ (mainRecord node env).errors = []) := by
  rw [mainRecord_status_def]
  exact ⟨finalStatus_eq_failed _, finalStatus_eq_success _⟩

/-- C2: the per-node script's exit code matches its computed status:
0 exactly when the record's status is SUCCESS, 1 exactly when it is
FAILED. -/
theorem exit_code_matches_status (node : String) (env : Env) :
    (mainExitCode node env = 0 ↔ (mainRecord node env).status = "SUCCESS") ∧
    (mainExitCode node env = 1 ↔ (mainRecord node env).status = "FAILED") := by
  have hcases := finalStatus_cases (mainRecord node env).errors
  rw [← mainRecord_status_def] at hcases
  unfold mainExitCode
  rcases hcases with h | h <;> rw [h] <;> simp

/-- C8: the status written by the per-node script is always exactly one
of SUCCESS and FAILED; the initial placeholder "unknown" never survives
to the output record. -/
theorem status_enumerated (node : String) (env : Env) :
    ((mainRecord node env).status = "SUCCESS" ∨ (mainRecord node env).status = "FAILED") ∧
    (mainRecord node env).status ≠ "unknown" := by
  have hcases := finalStatus_cases (mainRecord node env).errors
  rw [← mainRecord_status_def] at hcases
  refine ⟨hcases, ?_⟩
  rcases hcases with h | h <;> rw [h] <;> simp

/-- C4: every one of the five checks contributes its entry to the tests
mapping, and each entry is a function of that check's own inputs alone,
so no earlier check's failure blocks a later check; the single
exception is the inference entry, which is the skip marker when model
loading returned no model. -/
theorem checks_independent (node : String) (env : Env) :
    ((mainRecord node env).tests.map Prod.fst =
       ["environment", "pytorch", "cellpose", "model_loading", "inference"]) ∧
    (List.lookup "environment" (mainRecord node env).tests =
       some (test_environment env.info)) ∧
    (List.lookup "pytorch" (mainRecord node env).tests =
       some (test_pytorch env.pytorchExc env.torchVersion env.cudaCompiledVersion
              env.cudaAvailable env.devices).1) ∧
    (List.lookup "cellpose" (mainRecord node env).tests =
       some (test_cellpose env.cellposeExc env.cellposeVersion).1) ∧
    (List.lookup "model_loading" (mainRecord node env).tests =
       some (test_model_loading env.modelExc env.modelDevice env.modelGpuFlag
              env.modelNetDevice env.modelParamDevice env.cudaAvailable).2.1) ∧
    (∀ exc : PyExc,
       List.lookup "inference" (mainRecord node {env with modelExc := some exc}).tests =
         some skippedInference) ∧
    (List.lookup "inference" (mainRecord node {env with modelExc := none}).tests =
       some (test_inference env.inferenceExc env.numMasks env.outputShape).1) := by
  obtain ⟨h, i, pe, tv, cv, ca, dv, ce, cpv, me, md, mg, nd, pd, ie, nm, os⟩ := env
  refine ⟨rfl, rfl, rfl, rfl, rfl, fun exc => rfl, ?_⟩
  rcases Bool.eq_false_or_eq_true (md == "cpu" && ca) with hc | hc <;>
    simp only [mainRecord, test_model_loading, hc, if_true, if_false] <;> rfl

/-- C10: when model loading raises, the written record still carries an
inference entry, fixed to the skip marker, and the error list is
exactly the errors of the first three checks with the model-loading
error last: the skipped inference check appends nothing. -/
theorem model_failure_skips_inference (node : String) (env : Env) (exc : PyExc) :
    (List.lookup "inference" (mainRecord node {env with modelExc := some exc}).tests =
       some skippedInference) ∧
    ((mainRecord node {env with modelExc := some exc}).errors =
       (test_pytorch env.pytorchExc env.torchVersion env.cudaCompiledVersion
          env.cudaAvailable env.devices).2 ++
       (test_cellpose env.cellposeExc env.cellposeVersion).2 ++
       ["Model loading error: " ++ exc.msg]) := by
  constructor
  · rfl
  · simp [mainRecord, test_model_loading]

/-! ### Lemmas about the aggregator -/

/-- C5 counterexample: the spec reads as if the aggregator could be
invoked with either selector alone, but an invocation carrying only
the explicit file list is rejected by argument parsing, because
argparse marks the input directory as required. -/
theorem input_files_alone_rejected :
    parseSummaryArgs none (some "summary.txt") (some ["node1_result.json"]) =
      .error "the following arguments are required: --input-dir" := rfl

/-- C5 (amended): the input directory and output path are required on
every invocation; the explicit file list is optional, and when it is
supplied (necessarily non-empty) it determines the set of files read,
the directory glob being ignored; without it the glob is used. -/
theorem input_dir_required_input_files_take_precedence
    (d o f : String) (fs globbed : List String) :
    (parseSummaryArgs (some d) (some o) (some (f :: fs)) =
       .ok ⟨d, o, some (f :: fs)⟩) ∧
    (resultFiles ⟨d, o, some (f :: fs)⟩ globbed = f :: fs) ∧
    (resultFiles ⟨d, o, none⟩ globbed = globbed) ∧
    (parseSummaryArgs none (some o) (some (f :: fs)) =
       .error "the following arguments are required: --input-dir") :=
  ⟨rfl, rfl, rfl, rfl⟩

/-- C7: one input file that is not well-formed JSON makes the load loop
raise, so the run produces no summary text for any of the inputs. -/
theorem malformed_json_aborts (now : String) (inputs : List (Option JValue))
    (hmal : none ∈ inputs) :
    loadResults inputs = none ∧ summarizeRun now inputs = none := by
  have hload : loadResults inputs = none := by
    induction inputs with
    | nil => cases hmal
    | cons x xs ih =>
      cases x with
      | none => rfl
      | some j =>
        have hx : none ∈ xs := by
          cases hmal with
          | tail _ h => exact h
        simp [loadResults, ih hx]
  exact ⟨hload, by simp [summarizeRun, hload]⟩

theorem malformed_json_aborts_witness :
    (none ∈ ([none] : List (Option JValue))) ∧
    (loadResults [none] = none ∧ summarizeRun "t" [none] = none) :=
  ⟨List.Mem.head _, malformed_json_aborts "t" [none] (List.Mem.head _)⟩

theorem asStrs_map_str (l : List String) :
    JValue.asStrs (l.map JValue.str) = some l := by
  induction l with
  | nil => rfl
  | cons x xs ih => simp [JValue.asStrs, ih]

/-- Serialization round-trip of one result record. -/
theorem recordOfJson_recordToJson (r : Record) :
    recordOfJson (recordToJson r) = some r := by
  obtain ⟨n, h, s, t, e⟩ := r
  show (JValue.asStrs (e.map JValue.str)).bind
      (fun errs => some (Record.mk n h s t errs)) = some (Record.mk n h s t e)
  rw [asStrs_map_str]
  rfl

theorem mapM_recordOfJson_map (rs : List Record) :
    (rs.map recordToJson).mapM recordOfJson = some rs := by
  rw [← List.mapM'_eq_mapM]
  induction rs with
  | nil => rfl
  | cons r rest ih => simp [recordOfJson_recordToJson, ih]

theorem loadResults_map_some (js : List JValue) :
    loadResults (js.map some) = some js := by
  induction js with
  | nil => rfl
  | cons j rest ih => simp [loadResults, ih]

/-- Device entries produced by test_pytorch format without raising,
into exactly the lines of the crash-free renderer. -/
theorem devLinesGo_deviceJson (l : List (Nat × GpuDevice)) :
    devLinesGo (l.map (fun p => deviceJson p.1 p.2)) =
      (((l.map (fun p => deviceJson p.1 p.2)).map deviceLine).flatten, true) := by
  induction l with
  | nil => rfl
  | cons a rest ih =>
    simp only [deviceJson] at ih
    simp [devLinesGo, deviceLineE, deviceJson, deviceLine, pyStr, pyRepr, ih,
      JValue.lookup, List.lookup]

/-- A record written by the per-node script formats its success chunk
without raising, and the chunk is the crash-free one. -/
theorem successChunksE_mainRecord (node : String) (env : Env) :
    successChunksE (mainRecord node env) =
      (successChunks (mainRecord node env), true) := by
  obtain ⟨h, i, pe, tv, cv, ca, dv, ce, cpv, me, md, mg, nd, pd, ie, nm, os⟩ := env
  cases pe with
  | some e => rfl
  | none =>
    cases ca with
    | false => rfl
    | true =>
      have hd := devLinesGo_deviceJson dv.enum
      show (("  ✓ " ++ node ++ " (hostname: " ++ h ++ ")\n") ::
              (devLinesGo (dv.enum.map fun p => deviceJson p.1 p.2)).1,
            (devLinesGo (dv.enum.map fun p => deviceJson p.1 p.2)).2) =
           (("  ✓ " ++ node ++ " (hostname: " ++ h ++ ")\n") ::
              ((dv.enum.map fun p => deviceJson p.1 p.2).map deviceLine).flatten,
            true)
      rw [hd]

theorem successSectionE_complete (rs : List Record)
    (hc : ∀ r ∈ rs, successChunksE r = (successChunks r, true)) :
    successSectionE rs = ((rs.map successChunks).flatten, true) := by
  induction rs with
  | nil => rfl
  | cons r rest ih =>
    have h1 := hc r (List.mem_cons_self _ _)
    have h2 := ih (fun y hy => hc y (List.mem_cons_of_mem _ hy))
    simp [successSectionE, h1, h2]

/-- When every successful record formats without raising, the written
prefix is the whole report. -/
theorem summaryWritten_complete (now : String) (results : List Record)
    (hc : ∀ r ∈ successNodes results, successChunksE r = (successChunks r, true)) :
    summaryWritten now results = summaryChunks now results := by
  simp only [summaryWritten, summaryChunks]
  rw [successSectionE_complete _ hc]
  by_cases hse : (successNodes results).isEmpty = true
  · simp [hse, summaryTail]
  · simp [hse, summaryTail, List.append_assoc]

/-- C6: writing records, reading them back and summarizing yields the
written report, whose SUCCESS line counts exactly the records with
status SUCCESS and whose FAILED line exactly those with status FAILED,
for every record of the section-3 shape (those lines precede the
success-section writes, so they land even when a malformed device
entry later aborts the report); and for records actually written by
the per-node script the report always completes in full. -/
theorem roundtrip_summary_counts (now : String) (rs : List Record) :
    (summarizeRunW now (rs.map (fun r => some (recordToJson r))) =
       some (summaryWritten now rs)) ∧
    ("✓ SUCCESS: " ++ toString (rs.countP (fun r => r.status == "SUCCESS")) ++
       " nodes\n") ∈ summaryWritten now rs ∧
    ("✗ FAILED:  " ++ toString (rs.countP (fun r => r.status == "FAILED")) ++
       " nodes\n\n") ∈ summaryWritten now rs ∧
    (∀ pairs : List (String × Env),
       summaryWritten now (pairs.map (fun p => mainRecord p.1 p.2)) =
       summaryChunks now (pairs.map (fun p => mainRecord p.1 p.2))) := by
  refine ⟨?_, ?_, ?_, ?_⟩
  · have h1 : rs.map (fun r => some (recordToJson r)) =
        (rs.map recordToJson).map some := by
      rw [List.map_map]
      rfl
    unfold summarizeRunW
    rw [h1, loadResults_map_some, Option.some_bind, mapM_recordOfJson_map]
    rfl
  · have hc : rs.countP (fun r => r.status == "SUCCESS") =
        (successNodes rs).length := List.countP_eq_length_filter _ _
    rw [hc]
    simp [summaryWritten]
  · have hc : rs.countP (fun r => r.status == "FAILED") =
        (failedNodes rs).length := List.countP_eq_length_filter _ _
    rw [hc]
    simp [summaryWritten]
  · intro pairs
    apply summaryWritten_complete
    intro r hr
    have hr' : r ∈ pairs.map (fun p => mainRecord p.1 p.2) :=
      (List.mem_filter.mp hr).1
    obtain ⟨q, hq, hqe⟩ := List.mem_map.mp hr'
    rw [← hqe]
    exact successChunksE_mainRecord q.1 q.2

theorem countP_add_countP_le {α : Type} (p q : α → Bool) (l : List α)
    (hdisj : ∀ x ∈ l, ¬(p x = true ∧ q x = true)) :
    l.countP p + l.countP q ≤ l.length := by
  induction l with
  | nil => simp
  | cons x xs ih =>
    have hx := hdisj x (List.mem_cons_self _ _)
    have ih' := ih (fun y hy => hdisj y (List.mem_cons_of_mem _ hy))
    rw [List.countP_cons, List.countP_cons, List.length_cons]
    cases hp : p x <;> cases hq : q x <;> simp [hp, hq] at hx ⊢ <;> omega

theorem countP_add_countP_lt {α : Type} (p q : α → Bool) (l : List α) (a : α)
    (ha : a ∈ l) (hp : p a = false) (hq : q a = false)
    (hdisj : ∀ x ∈ l, ¬(p x = true ∧ q x = true)) :
    l.countP p + l.countP q < l.length := by
  induction l with
  | nil => cases ha
  | cons x xs ih =>
    rw [List.countP_cons, List.countP_cons, List.length_cons]
    rcases List.mem_cons.mp ha with rfl | ha'
    · have hle := countP_add_countP_le p q xs
        (fun y hy => hdisj y (List.mem_cons_of_mem _ hy))
      simp [hp, hq]
      omega
    · have hlt := ih ha' (fun y hy => hdisj y (List.mem_cons_of_mem _ hy))
      have hx := hdisj x (List.mem_cons_self _ _)
      cases hpx : p x <;> cases hqx : q x <;> simp [hpx, hqx] at hx ⊢ <;> omega

/-- C9: a record whose status is neither SUCCESS nor FAILED still counts
toward the total-nodes-tested line, but the record is in neither the
successful-nodes nor the failed-nodes partition, so the two reported
counts sum to strictly less than the reported total. -/
theorem other_status_counted_but_unlisted (now : String)
    (results : List Record) (r : Record) (hmem : r ∈ results)
    (hs : r.status ≠ "SUCCESS") (hf : r.status ≠ "FAILED") :
    ("Total nodes tested: " ++ toString results.length ++ "\n") ∈
      summaryChunks now results ∧
    r ∉ successNodes results ∧
    r ∉ failedNodes results ∧
    results.countP (fun x => x.status == "SUCCESS") +
      results.countP (fun x => x.status == "FAILED") < results.length := by
  refine ⟨?_, ?_, ?_, ?_⟩
  · simp [summaryChunks]
  · intro hcon
    simp [successNodes, List.mem_filter] at hcon
    exact hs hcon.2
  · intro hcon
    simp [failedNodes, List.mem_filter] at hcon
    exact hf hcon.2
  · apply countP_add_countP_lt _ _ _ r hmem
    · simpa using hs
    · simpa using hf
    · rintro x hx ⟨h1, h2⟩
      rw [beq_iff_eq] at h1 h2
      rw [h1] at h2
      exact absurd h2 (by decide)

/-- Hand-constructed records for the concrete witnesses. -/
def unknownRecord : Record := ⟨"node-x", "host-x", "unknown", [], []⟩

theorem other_status_counted_but_unlisted_witness :
    (unknownRecord ∈ [unknownRecord]) ∧
    (("Total nodes tested: " ++ toString ([unknownRecord] : List Record).length ++
        "\n") ∈ summaryChunks "t" [unknownRecord] ∧
     unknownRecord ∉ successNodes [unknownRecord] ∧
     unknownRecord ∉ failedNodes [unknownRecord] ∧
     List.countP (fun x => x.status == "SUCCESS") [unknownRecord] +
       List.countP (fun x => x.status == "FAILED") [unknownRecord] <
         List.length [unknownRecord]) :=
  ⟨List.Mem.head _,
   other_status_counted_but_unlisted "t" [unknownRecord] unknownRecord
     (List.Mem.head _) (by decide) (by decide)⟩

/-- One addError step lists node n under err, and disturbs no other
listing. -/
theorem inCategory_addError (cats : List (String × List String))
    (err n e node : String) :
    inCategory (addError cats err n) e node ↔
      inCategory cats e node ∨ (e = err ∧ n = node) := by
  unfold inCategory addError
  by_cases h : cats.any (fun p => p.1 == err) = true
  · rw [if_pos h]
    constructor
    · rintro ⟨p, hp, hpe, hnode⟩
      rw [List.mem_map] at hp
      obtain ⟨q, hq, hfq⟩ := hp
      by_cases hqe : (q.1 == err) = true
      · rw [if_pos hqe] at hfq
        subst hfq
        have hq1 : q.1 = err := by simpa using hqe
        rcases List.mem_append.mp hnode with hin | hin
        · exact Or.inl ⟨q, hq, hpe, hin⟩
        · have hnn : node = n := List.mem_singleton.mp hin
          exact Or.inr ⟨by rw [← hpe, hq1], hnn.symm⟩
      · rw [if_neg hqe] at hfq
        subst hfq
        exact Or.inl ⟨q, hq, hpe, hnode⟩
    · rintro (⟨p, hp, hpe, hnode⟩ | ⟨rfl, rfl⟩)
      · refine ⟨if (p.1 == err) = true then (p.1, p.2 ++ [n]) else p,
          List.mem_map_of_mem _ hp, ?_⟩
        by_cases hpe' : (p.1 == err) = true
        · rw [if_pos hpe']
          exact ⟨hpe, List.mem_append.mpr (Or.inl hnode)⟩
        · rw [if_neg hpe']
          exact ⟨hpe, hnode⟩
      · rw [List.any_eq_true] at h
        obtain ⟨q, hq, hq1⟩ := h
        have hmem := List.mem_map_of_mem
          (fun p => if (p.1 == e) = true then (p.1, p.2 ++ [n]) else p) hq
        simp only [hq1, if_true] at hmem
        exact ⟨(q.1, q.2 ++ [n]), hmem, by simpa using hq1,
          List.mem_append.mpr (Or.inr (List.mem_singleton.mpr rfl))⟩
  · rw [if_neg h]
    constructor
    · rintro ⟨p, hp, hpe, hnode⟩
      rcases List.mem_append.mp hp with hin | hin
      · exact Or.inl ⟨p, hin, hpe, hnode⟩
      · have hpv : p = (err, [n]) := List.mem_singleton.mp hin
        subst hpv
        exact Or.inr ⟨hpe.symm ▸ rfl, (List.mem_singleton.mp hnode).symm⟩
    · rintro (⟨p, hp, hpe, hnode⟩ | ⟨rfl, rfl⟩)
      · exact ⟨p, List.mem_append.mpr (Or.inl hp), hpe, hnode⟩
      · exact ⟨(e, [n]), List.mem_append.mpr (Or.inr (List.mem_singleton.mpr rfl)),
          rfl, List.mem_singleton.mpr rfl⟩

/-- Folding one record's error list into the dict lists its node under
exactly its error strings. -/
theorem inCategory_foldl_errors (e node n : String) (errs : List String) :
    ∀ cats, inCategory (errs.foldl (fun c err => addError c err n) cats) e node ↔
      inCategory cats e node ∨ (e ∈ errs ∧ n = node) := by
  induction errs with
  | nil =>
    intro cats
    simp
  | cons x xs ih =>
    intro cats
    rw [List.foldl_cons, ih (addError cats x n), inCategory_addError]
    simp only [List.mem_cons]
    constructor
    · rintro ((h | ⟨he, hn⟩) | ⟨he, hn⟩)
      · exact Or.inl h
      · exact Or.inr ⟨Or.inl he, hn⟩
      · exact Or.inr ⟨Or.inr he, hn⟩
    · rintro (h | ⟨he | he, hn⟩)
      · exact Or.inl (Or.inl h)
      · exact Or.inl (Or.inr ⟨he, hn⟩)
      · exact Or.inr ⟨he, hn⟩

/-- The error_categories dict lists a node under an error string exactly
when one of the folded records carries that node name and that error. -/
theorem inCategory_errorCategories (e node : String) (failures : List Record) :
    inCategory (errorCategories failures) e node ↔
      ∃ r ∈ failures, r.node = node ∧ e ∈ r.errors := by
  have main : ∀ (rs : List Record) (cats : List (String × List String)),
      inCategory (rs.foldl
        (fun cats r => r.errors.foldl (fun c err => addError c err r.node) cats)
        cats) e node ↔
      inCategory cats e node ∨ ∃ r ∈ rs, r.node = node ∧ e ∈ r.errors := by
    intro rs
    induction rs with
    | nil =>
      intro cats
      simp
    | cons r rest ih =>
      intro cats
      rw [List.foldl_cons, ih, inCategory_foldl_errors]
      simp only [List.mem_cons, exists_eq_or_imp]
      constructor
      · rintro ((h | ⟨he, hn⟩) | ⟨q, hq, hqn, hqe⟩)
        · exact Or.inl h
        · exact Or.inr (Or.inl ⟨hn, he⟩)
        · exact Or.inr (Or.inr ⟨q, hq, hqn, hqe⟩)
      · rintro (h | ⟨hn, he⟩ | ⟨q, hq, hqn, hqe⟩)
        · exact Or.inl (Or.inl h)
        · exact Or.inl (Or.inr ⟨he, hn⟩)
        · exact Or.inr ⟨q, hq, hqn, hqe⟩
  rw [errorCategories, main]
  simp [inCategory]

/-- C3: over well-formed result records (status FAILED exactly when the
error list is non-empty), the detailed error breakdown lists a node
name under an error string exactly when that node's record contains
that error string, literally compared, in its error list. -/
theorem error_breakdown_groups (results : List Record) (e node : String)
    (hwf : ∀ r ∈ results, (r.status = "FAILED" ↔ r.errors ≠ [])) :
    inCategory (errorCategories (failedNodes results)) e node ↔
      ∃ r ∈ results, r.node = node ∧ e ∈ r.errors := by
  rw [inCategory_errorCategories]
  constructor
  · rintro ⟨r, hr, hn, he⟩
    exact ⟨r, (List.mem_filter.mp hr).1, hn, he⟩
  · rintro ⟨r, hr, hn, he⟩
    have hst : r.status = "FAILED" := (hwf r hr).mpr (List.ne_nil_of_mem he)
    exact ⟨r, List.mem_filter.mpr ⟨hr, by simp [hst]⟩, hn, he⟩

/-- Hand-constructed well-formed records exercising the grouping. -/
def wfRecords : List Record :=
  [⟨"node-a", "host-a", "FAILED", [], ["CUDA not available despite GPU partition"]⟩,
   ⟨"node-b", "host-b", "SUCCESS", [], []⟩,
   ⟨"node-c", "host-c", "FAILED", [],
     ["CUDA not available despite GPU partition", "Cellpose import error: boom"]⟩]

theorem error_breakdown_groups_witness :
    (∀ r ∈ wfRecords, (r.status = "FAILED" ↔ r.errors ≠ [])) ∧
    (inCategory (errorCategories (failedNodes wfRecords))
        "CUDA not available despite GPU partition" "node-a" ↔
      ∃ r ∈ wfRecords, r.node = "node-a" ∧
        "CUDA not available despite GPU partition" ∈ r.errors) :=
  ⟨by decide, error_breakdown_groups wfRecords _ _ (by decide)⟩

end SnakeSlurm
